import Mathlib

/-!
Shallow embedding of the CarwashBackend wallet/commission ledger.

Sources embedded:
- `src/models/bookingModel.ts` (current revision): booking shape,
  status enum with default `completed`.
- `src/models/walletModel.ts`: wallet shape, the pre-save hook, and the
  instance methods `addCompletedBooking`, `removeCompletedBooking`,
  `rebuildWalletBalance`, `resetWallet`, and the static
  `getOrCreateWallet`.
- `src/controllers/walletController.ts`: `markAttendantPaid`,
  `settleAttendantBalances`, `adjustAttendantWallet`,
  `rebuildWalletBalance` handler.
- `src/unnamed/part_002` (current revision, the second document in the
  file): the booking controller's `createBooking`, `updateBooking`,
  `deleteBooking`.

Money is modelled as `ℚ`; JS `Math.max(0, x)` is `max 0 x`; Mongo
documents become records; the per-attendant wallet collection becomes a
total map `ℕ → Wallet` whose default value is exactly the wallet that
`getOrCreateWallet` creates on first access (balance 0, `isPaid: true`),
so lazy creation is a pure lookup. Calendar days are natural numbers:
`createdAt` stores the day a booking was created and the `settle` scope
check "createdAt within today" becomes `createdAt = today`.
-/

namespace Carwash

/-- Payment methods, from the `paymentType` enum of `bookingModel.ts`:
`attendant_cash` is attendant-collected cash; `admin_cash` and
`admin_till` are admin-collected. -/
inductive PaymentType
  | attendant_cash
  | admin_cash
  | admin_till
deriving DecidableEq

/-- Booking statuses as validated by the booking controller
(`pending`, `in progress`, `completed`, `cancelled`). -/
inductive BookingStatus
  | pending
  | inProgress
  | completed
  | cancelled
deriving DecidableEq

/-- User roles relevant to the ledger. -/
inductive Role
  | admin
  | attendant
deriving DecidableEq

/-- Adjustment kinds from the wallet schema's `adjustments.type` enum. -/
inductive AdjKind
  | tip
  | deduction
deriving DecidableEq

/-- One entry of the wallet's `adjustments` array
`{type, amount, reason, adjustedBy, adjustedAt}`. -/
structure Adjustment where
  kind : AdjKind
  amount : ℚ
  reason : Option String
  adjustedBy : String
  adjustedAt : ℕ
deriving DecidableEq

/-- A booking document (`bookingModel.ts`); fields that never influence
the ledger (car registration, colour, phone, category, service type) are
omitted. `createdAt` is a day number. -/
structure Booking where
  id : ℕ
  attendant : ℕ
  amount : ℚ
  paymentType : PaymentType
  status : BookingStatus
  attendantPaid : Bool
  createdAt : ℕ
deriving DecidableEq

/-- A wallet document (`walletModel.ts`). -/
structure Wallet where
  balance : ℚ
  totalEarnings : ℚ
  totalCommission : ℚ
  totalCompanyShare : ℚ
  companyDebt : ℚ
  lastPaymentDate : Option ℕ
  isPaid : Bool
  adjustments : List Adjustment
deriving DecidableEq

/-- The wallet `getOrCreateWallet` creates on first access: zero
balance and totals, `isPaid: true` (the static passes `isPaid: true`
explicitly, overriding the schema default). -/
def initWallet : Wallet :=
  { balance := 0
    totalEarnings := 0
    totalCommission := 0
    totalCompanyShare := 0
    companyDebt := 0
    lastPaymentDate := none
    isPaid := true
    adjustments := [] }

/-- The `walletSchema.pre('save')` hook: if the balance is not zero the
wallet is marked unpaid; a zero balance leaves `isPaid` untouched.
The instance methods also run this same conditional inline before
saving; since the function is idempotent we apply it once. -/
def walletSave (w : Wallet) : Wallet :=
  if w.balance ≠ 0 then { w with isPaid := false } else w

/-- `addCompletedBooking(amount, paymentType)`: 40% commission, 60%
company share; attendant-collected cash debits the balance by the
company share and grows `companyDebt`; admin-collected methods credit
the balance by the commission. -/
def addCompletedBooking (w : Wallet) (amount : ℚ) (paymentType : PaymentType) : Wallet :=
  let commission := amount * (4 / 10)
  let companyShare := amount * (6 / 10)
  let w1 := { w with
    totalEarnings := w.totalEarnings + amount
    totalCommission := w.totalCommission + commission
    totalCompanyShare := w.totalCompanyShare + companyShare }
  let w2 :=
    if paymentType = PaymentType.attendant_cash then
      { w1 with balance := w1.balance - companyShare
                companyDebt := w1.companyDebt + companyShare }
    else
      { w1 with balance := w1.balance + commission }
  walletSave w2

/-- `removeCompletedBooking(amount, paymentType)`: the reversal; totals
and `companyDebt` are clamped at 0 with `Math.max`. -/
def removeCompletedBooking (w : Wallet) (amount : ℚ) (paymentType : PaymentType) : Wallet :=
  let commission := amount * (4 / 10)
  let companyShare := amount * (6 / 10)
  let w1 := { w with
    totalEarnings := max 0 (w.totalEarnings - amount)
    totalCommission := max 0 (w.totalCommission - commission)
    totalCompanyShare := max 0 (w.totalCompanyShare - companyShare) }
  let w2 :=
    if paymentType = PaymentType.attendant_cash then
      { w1 with balance := w1.balance + companyShare
                companyDebt := max 0 (w1.companyDebt - companyShare) }
    else
      { w1 with balance := w1.balance - commission }
  walletSave w2

/-- The aggregate accumulator of `rebuildWalletBalance`'s loop. -/
structure Aggregates where
  balance : ℚ
  totalEarnings : ℚ
  totalCommission : ℚ
  totalCompanyShare : ℚ
  companyDebt : ℚ
deriving DecidableEq

/-- The booking loop of `rebuildWalletBalance` (and of the legacy
`calculateBalanceFromBookings`): fold the commission policy over a list
of bookings. -/
def rebuildFold (bs : List Booking) : Aggregates :=
  bs.foldl
    (fun a b =>
      let commission := b.amount * (4 / 10)
      let companyShare := b.amount * (6 / 10)
      { balance :=
          if b.paymentType = PaymentType.attendant_cash then a.balance - companyShare
          else a.balance + commission
        totalEarnings := a.totalEarnings + b.amount
        totalCommission := a.totalCommission + commission
        totalCompanyShare := a.totalCompanyShare + companyShare
        companyDebt :=
          if b.paymentType = PaymentType.attendant_cash then a.companyDebt + companyShare
          else a.companyDebt })
    ⟨0, 0, 0, 0, 0⟩

/-- The adjustments loop of `rebuildWalletBalance`: tips add to the
balance, deductions subtract. -/
def applyAdjustments (bal : ℚ) (adjs : List Adjustment) : ℚ :=
  adjs.foldl
    (fun b adj =>
      match adj.kind with
      | AdjKind.tip => b + adj.amount
      | AdjKind.deduction => b - adj.amount)
    bal

/-- `rebuildWalletBalance()`: recompute every aggregate from the given
bookings (the caller passes the attendant's completed, not
attendant-paid bookings) plus the wallet's stored adjustments, then
save. -/
def rebuildWalletBalance (w : Wallet) (unpaidCompleted : List Booking) : Wallet :=
  let agg := rebuildFold unpaidCompleted
  walletSave { w with
    balance := applyAdjustments agg.balance w.adjustments
    totalEarnings := agg.totalEarnings
    totalCommission := agg.totalCommission
    totalCompanyShare := agg.totalCompanyShare
    companyDebt := agg.companyDebt }

/-- `resetWallet()`: zero everything, clear the adjustments array, stamp
`lastPaymentDate`, set `isPaid` and save. -/
def resetWallet (w : Wallet) (now : ℕ) : Wallet :=
  walletSave { w with
    balance := 0
    totalEarnings := 0
    totalCommission := 0
    totalCompanyShare := 0
    companyDebt := 0
    adjustments := []
    lastPaymentDate := some now
    isPaid := true }

/-- The whole persistent state: the user directory (id to role), the
booking collection, the wallet collection as a total map (see the
header note on `getOrCreateWallet`), the current day, and the id the
next created booking receives. -/
structure SystemState where
  users : ℕ → Option Role
  bookings : List Booking
  wallets : ℕ → Wallet
  today : ℕ
  nextBookingId : ℕ

/-- Store a wallet document under an attendant id. -/
def setWallet (st : SystemState) (att : ℕ) (w : Wallet) : SystemState :=
  { st with wallets := Function.update st.wallets att w }

/-- `Booking.findById`. -/
def findBooking (st : SystemState) (id : ℕ) : Option Booking :=
  st.bookings.find? (fun b => decide (b.id = id))

/-- `createBooking` (booking controller, current revision): validate
amount > 0 and attendant existence (role is not checked), create the
booking — the schema supplies `status: 'completed'` by default and the
handler never sets a status — and, because the new booking's status is
`completed`, set `isPaid = false` on the wallet and run
`addCompletedBooking`. Validation failures leave the state unchanged. -/
def createBooking (st : SystemState) (attendant : ℕ) (amount : ℚ)
    (paymentType : PaymentType) : SystemState :=
  if amount ≤ 0 then st
  else
    match st.users attendant with
    | none => st
    | some _ =>
      let b : Booking :=
        { id := st.nextBookingId
          attendant := attendant
          amount := amount
          paymentType := paymentType
          status := BookingStatus.completed
          attendantPaid := false
          createdAt := st.today }
      let st1 := { st with
        bookings := st.bookings ++ [b]
        nextBookingId := st.nextBookingId + 1 }
      if b.status = BookingStatus.completed then
        let w := st1.wallets attendant
        let w := addCompletedBooking { w with isPaid := false } amount paymentType
        setWallet st1 attendant w
      else st1

/-- The optional fields of an update request body that can affect the
ledger (the other body fields never touch a wallet). -/
structure UpdateReq where
  attendant : Option ℕ
  amount : Option ℚ
  paymentType : Option PaymentType
  status : Option BookingStatus

/-- A guarded state update, `if c then f st else st`: the shape of each
of the five wallet cases in `updateBooking`. -/
def applyIf (c : Bool) (f : SystemState → SystemState) (st : SystemState) : SystemState :=
  if c then f st else st

/-- `updateBooking` (booking controller, current revision). The five
wallet cases are translated guard for guard; note that the guards of
cases 3, 4 and 5 overlap, exactly as in the source. JS truthiness is
kept where it matters: the amount validation `amount && amount <= 0`
only fires for negative amounts, and the final document update
`...(amount && { amount })` skips a zero amount. -/
def updateBooking (st : SystemState) (id : ℕ) (r : UpdateReq) : SystemState :=
  if (match r.amount with | some a => decide (a < 0) | none => false) then st
  else if (match r.attendant with | some a => (st.users a).isNone | none => false) then st
  else
    match findBooking st id with
    | none => st
    | some orig =>
      let originalAttendant := orig.attendant
      let finalAttendant := r.attendant.getD originalAttendant
      let amountChanged : Bool :=
        match r.amount with | some a => decide (a ≠ orig.amount) | none => false
      let attendantChanged : Bool :=
        match r.attendant with | some a => decide (a ≠ originalAttendant) | none => false
      let paymentTypeChanged : Bool :=
        match r.paymentType with | some p => decide (p ≠ orig.paymentType) | none => false
      let statusChanged : Bool :=
        match r.status with | some s => decide (s ≠ orig.status) | none => false
      let statusChangedToCompleted : Bool :=
        statusChanged && decide (r.status = some BookingStatus.completed)
      let statusChangedFromCompleted : Bool :=
        statusChanged && decide (orig.status = BookingStatus.completed)
          && decide (r.status ≠ some BookingStatus.completed)
      let wasCompleted : Bool := decide (orig.status = BookingStatus.completed)
      let finalAmount := r.amount.getD orig.amount
      let finalPaymentType := r.paymentType.getD orig.paymentType
      -- Case 1: status changed from completed - remove from wallet
      let st := applyIf statusChangedFromCompleted
        (fun s => setWallet s originalAttendant
          (removeCompletedBooking (s.wallets originalAttendant) orig.amount orig.paymentType))
        st
      -- Case 2: status changed to completed - add to wallet
      let st := applyIf statusChangedToCompleted
        (fun s => setWallet s finalAttendant
          (addCompletedBooking (s.wallets finalAttendant) finalAmount finalPaymentType))
        st
      -- Case 3: was completed and amount/paymentType changed
      let st := applyIf (wasCompleted && !statusChanged && (amountChanged || paymentTypeChanged))
        (fun s =>
          let w := s.wallets originalAttendant
          let w := removeCompletedBooking w orig.amount orig.paymentType
          let w := addCompletedBooking w finalAmount finalPaymentType
          setWallet s originalAttendant w)
        st
      -- Case 4: was completed and attendant changed - move between wallets
      let st := applyIf (wasCompleted && attendantChanged)
        (fun s =>
          let s' := setWallet s originalAttendant
            (removeCompletedBooking (s.wallets originalAttendant) finalAmount finalPaymentType)
          setWallet s' finalAttendant
            (addCompletedBooking (s'.wallets finalAttendant) finalAmount finalPaymentType))
        st
      -- Case 5: was completed, attendant changed AND amount/paymentType changed
      let st := applyIf (wasCompleted && attendantChanged && (amountChanged || paymentTypeChanged))
        (fun s =>
          let s' := setWallet s originalAttendant
            (removeCompletedBooking (s.wallets originalAttendant) orig.amount orig.paymentType)
          setWallet s' finalAttendant
            (addCompletedBooking (s'.wallets finalAttendant) finalAmount finalPaymentType))
        st
      -- findByIdAndUpdate with the provided fields
      let newBooking := { orig with
        attendant := finalAttendant
        amount := match r.amount with
          | some a => if a ≠ 0 then a else orig.amount
          | none => orig.amount
        paymentType := finalPaymentType
        status := r.status.getD orig.status }
      { st with bookings := st.bookings.map (fun b => if b.id = id then newBooking else b) }

/-- `deleteBooking` (booking controller, current revision): if the
booking was completed, reverse it on the attendant's wallet, then
remove the document. -/
def deleteBooking (st : SystemState) (id : ℕ) : SystemState :=
  match findBooking st id with
  | none => st
  | some b =>
    let st :=
      if b.status = BookingStatus.completed then
        setWallet st b.attendant
          (removeCompletedBooking (st.wallets b.attendant) b.amount b.paymentType)
      else st
    { st with bookings := st.bookings.filter (fun x => decide (x.id ≠ id)) }

/-- The `updateMany` filter of `markAttendantPaid`: all completed,
attendant-unpaid bookings of the attendant, regardless of date. -/
def markScopePred (att : ℕ) (b : Booking) : Bool :=
  decide (b.attendant = att) && !b.attendantPaid && decide (b.status = BookingStatus.completed)

/-- The `updateMany` filter of `settleAttendantBalances`: the same, but
restricted to bookings created today. -/
def settleScopePred (att today : ℕ) (b : Booking) : Bool :=
  markScopePred att b && decide (b.createdAt = today)

/-- `markAttendantPaid` (wallet controller): validate existence, role
and not-already-paid, flip `attendantPaid` on ALL completed unpaid
bookings (no date filter), then `resetWallet`. Failures leave the state
unchanged. -/
def markAttendantPaid (st : SystemState) (att : ℕ) : SystemState :=
  match st.users att with
  | none => st
  | some role =>
    if role ≠ Role.attendant then st
    else if (st.wallets att).isPaid then st
    else
      let st := { st with
        bookings := st.bookings.map
          (fun b => if markScopePred att b then { b with attendantPaid := true } else b) }
      setWallet st att (resetWallet (st.wallets att) st.today)

/-- The outcome of a batch settlement: final state, settled attendant
ids, and error strings, mirroring the controller's
`{ settledWallets, errors }` response. -/
structure SettleOutcome where
  state : SystemState
  settled : List ℕ
  errors : List String

/-- One iteration of the `settleAttendantBalances` loop: on a missing
user, wrong role or already-paid wallet, push an error and continue
with the state untouched; otherwise flip `attendantPaid` on today's
completed unpaid bookings and reset the wallet. -/
def settleStep (r : SettleOutcome) (att : ℕ) : SettleOutcome :=
  match r.state.users att with
  | none => { r with errors := r.errors ++ ["Attendant not found: " ++ toString att] }
  | some role =>
    if role ≠ Role.attendant then
      { r with errors := r.errors ++ ["User is not an attendant: " ++ toString att] }
    else if (r.state.wallets att).isPaid then
      { r with errors := r.errors ++ ["Attendant already marked as paid: " ++ toString att] }
    else
      let st := { r.state with
        bookings := r.state.bookings.map
          (fun b => if settleScopePred att r.state.today b then { b with attendantPaid := true } else b) }
      let st := setWallet st att (resetWallet (st.wallets att) st.today)
      { state := st, settled := r.settled ++ [att], errors := r.errors }

/-- `settleAttendantBalances` (wallet controller): process the id list
in order, isolating per-attendant failures. -/
def settleAttendantBalances (st : SystemState) (ids : List ℕ) : SettleOutcome :=
  ids.foldl settleStep ⟨st, [], []⟩

/-- `adjustAttendantWallet` (wallet controller): validate amount > 0,
existence and role; append the adjustment record and save; then apply
±amount to the balance, clear `isPaid` if the balance is non-zero, and
save again. -/
def adjustAttendantWallet (st : SystemState) (att : ℕ) (kind : AdjKind) (amount : ℚ)
    (reason : Option String) (adminName : String) : SystemState :=
  if amount ≤ 0 then st
  else
    match st.users att with
    | none => st
    | some role =>
      if role ≠ Role.attendant then st
      else
        let w := st.wallets att
        let adj : Adjustment :=
          { kind := kind, amount := amount, reason := reason
            adjustedBy := adminName, adjustedAt := st.today }
        let w := walletSave { w with adjustments := w.adjustments ++ [adj] }
        let w :=
          match kind with
          | AdjKind.tip => { w with balance := w.balance + amount }
          | AdjKind.deduction => { w with balance := w.balance - amount }
        let w := walletSave w
        setWallet st att w

/-- The `rebuildWalletBalance` handler (wallet controller): validate
existence and role, then run the instance method over the attendant's
completed, not attendant-paid bookings. -/
def rebuildOp (st : SystemState) (att : ℕ) : SystemState :=
  match st.users att with
  | none => st
  | some role =>
    if role ≠ Role.attendant then st
    else
      let unpaid := st.bookings.filter
        (fun b => decide (b.attendant = att) && decide (b.status = BookingStatus.completed)
          && !b.attendantPaid)
      setWallet st att (rebuildWalletBalance (st.wallets att) unpaid)

/-- The replayed ("ground truth") wallet of the reconciliation
invariant: rebuild from the completed, not attendant-paid bookings of
the attendant plus the wallet's recorded adjustments — the same
computation `rebuildWalletBalance` performs. -/
def replayedWallet (st : SystemState) (att : ℕ) : Wallet :=
  rebuildWalletBalance (st.wallets att)
    (st.bookings.filter
      (fun b => decide (b.attendant = att) && decide (b.status = BookingStatus.completed)
        && !b.attendantPaid))

/-- The operations a trace may perform: the ledger-affecting API
operations plus the environment's passage to the next day. -/
inductive Op
  | nextDay
  | createBooking (attendant : ℕ) (amount : ℚ) (paymentType : PaymentType)
  | updateBooking (id : ℕ) (r : UpdateReq)
  | deleteBooking (id : ℕ)
  | settle (ids : List ℕ)
  | markPaid (att : ℕ)
  | adjust (att : ℕ) (kind : AdjKind) (amount : ℚ) (reason : Option String) (adminName : String)
  | rebuild (att : ℕ)

/-- Interpret one operation. -/
def applyOp (st : SystemState) : Op → SystemState
  | Op.nextDay => { st with today := st.today + 1 }
  | Op.createBooking a amt pt => createBooking st a amt pt
  | Op.updateBooking id r => updateBooking st id r
  | Op.deleteBooking id => deleteBooking st id
  | Op.settle ids => (settleAttendantBalances st ids).state
  | Op.markPaid a => markAttendantPaid st a
  | Op.adjust a k amt r n => adjustAttendantWallet st a k amt r n
  | Op.rebuild a => rebuildOp st a

/-- A small fixed user directory for concrete traces: ids 1 and 2 are
attendants, id 9 is an admin. -/
def demoUsers : ℕ → Option Role := fun id =>
  if id = 1 ∨ id = 2 then some Role.attendant
  else if id = 9 then some Role.admin
  else none

/-- The empty initial state on day 0. -/
def initState : SystemState :=
  { users := demoUsers
    bookings := []
    wallets := fun _ => initWallet
    today := 0
    nextBookingId := 0 }

/-- Run a trace of operations from the initial state. -/
def runTrace (ops : List Op) : SystemState :=
  ops.foldl applyOp initState

/-- Saving never changes the balance. -/
theorem walletSave_balance (w : Wallet) : (walletSave w).balance = w.balance := by
  unfold walletSave; split <;> rfl

/-- Saving never changes the earnings total. -/
theorem walletSave_totalEarnings (w : Wallet) :
    (walletSave w).totalEarnings = w.totalEarnings := by
  unfold walletSave; split <;> rfl

/-- Saving never changes the commission total. -/
theorem walletSave_totalCommission (w : Wallet) :
    (walletSave w).totalCommission = w.totalCommission := by
  unfold walletSave; split <;> rfl

/-- Saving never changes the company-share total. -/
theorem walletSave_totalCompanyShare (w : Wallet) :
    (walletSave w).totalCompanyShare = w.totalCompanyShare := by
  unfold walletSave; split <;> rfl

/-- Saving never changes the company debt. -/
theorem walletSave_companyDebt (w : Wallet) : (walletSave w).companyDebt = w.companyDebt := by
  unfold walletSave; split <;> rfl

/-- Saving never changes the adjustments list. -/
theorem walletSave_adjustments (w : Wallet) : (walletSave w).adjustments = w.adjustments := by
  unfold walletSave; split <;> rfl

/-- Saving never changes the last payment date. -/
theorem walletSave_lastPaymentDate (w : Wallet) :
    (walletSave w).lastPaymentDate = w.lastPaymentDate := by
  unfold walletSave; split <;> rfl

/-- Rewrite lemma: admin-collected cash is not attendant-collected cash. -/
theorem pt_admin_cash_ne : (PaymentType.admin_cash = PaymentType.attendant_cash) = False := by
  simp

/-- Rewrite lemma: admin-collected till is not attendant-collected cash. -/
theorem pt_admin_till_ne : (PaymentType.admin_till = PaymentType.attendant_cash) = False := by
  simp

/-- C1: for a completed booking applied to a wallet,
`addCompletedBooking` credits commission = amount × 0.4 and
companyShare = amount × 0.6 to the respective totals; for
attendant-collected cash the balance decreases by the company share and
`companyDebt` increases by it; for the admin-collected methods the
balance increases by the commission and `companyDebt` is unchanged. -/
theorem addCompletedBooking_commission_policy (w : Wallet) (a : ℚ) (pt : PaymentType) :
    (addCompletedBooking w a pt).totalCommission = w.totalCommission + a * (4 / 10) ∧
    (addCompletedBooking w a pt).totalCompanyShare = w.totalCompanyShare + a * (6 / 10) ∧
    (addCompletedBooking w a pt).totalEarnings = w.totalEarnings + a ∧
    (addCompletedBooking w a pt).balance =
      (if pt = PaymentType.attendant_cash then w.balance - a * (6 / 10)
       else w.balance + a * (4 / 10)) ∧
    (addCompletedBooking w a pt).companyDebt =
      (if pt = PaymentType.attendant_cash then w.companyDebt + a * (6 / 10)
       else w.companyDebt) := by
  cases pt <;>
    simp [addCompletedBooking, walletSave_balance, walletSave_totalEarnings,
      walletSave_totalCommission, walletSave_totalCompanyShare, walletSave_companyDebt]

/-- C3: applying a booking and then reversing it with the same amount
and payment method restores balance, all three totals and `companyDebt`
exactly, provided the starting totals and debt are non-negative and the
amount is positive. -/
theorem apply_then_reverse_restores (w : Wallet) (a : ℚ) (pt : PaymentType)
    (hE : 0 ≤ w.totalEarnings) (hC : 0 ≤ w.totalCommission)
    (hS : 0 ≤ w.totalCompanyShare) (hD : 0 ≤ w.companyDebt) (ha : 0 < a) :
    (removeCompletedBooking (addCompletedBooking w a pt) a pt).balance = w.balance ∧
    (removeCompletedBooking (addCompletedBooking w a pt) a pt).totalEarnings
      = w.totalEarnings ∧
    (removeCompletedBooking (addCompletedBooking w a pt) a pt).totalCommission
      = w.totalCommission ∧
    (removeCompletedBooking (addCompletedBooking w a pt) a pt).totalCompanyShare
      = w.totalCompanyShare ∧
    (removeCompletedBooking (addCompletedBooking w a pt) a pt).companyDebt
      = w.companyDebt := by
  cases pt <;>
    simp [addCompletedBooking, removeCompletedBooking, walletSave_balance,
      walletSave_totalEarnings, walletSave_totalCommission, walletSave_totalCompanyShare,
      walletSave_companyDebt, add_sub_cancel_right, max_eq_right, hE, hC, hS, hD]

/-- Witness for C3 at a concrete wallet and amount. -/
theorem apply_then_reverse_restores_witness :
    (0:ℚ) ≤ (7:ℚ) ∧ (0:ℚ) < (10:ℚ) ∧
    (removeCompletedBooking
        (addCompletedBooking
          { balance := -3, totalEarnings := 7, totalCommission := 7 * (4 / 10),
            totalCompanyShare := 7 * (6 / 10), companyDebt := 5,
            lastPaymentDate := none, isPaid := false, adjustments := [] }
          10 PaymentType.attendant_cash)
        10 PaymentType.attendant_cash).balance = -3 := by
  refine ⟨by norm_num, by norm_num, ?_⟩
  exact (apply_then_reverse_restores
    { balance := -3, totalEarnings := 7, totalCommission := 7 * (4 / 10),
      totalCompanyShare := 7 * (6 / 10), companyDebt := 5,
      lastPaymentDate := none, isPaid := false, adjustments := [] }
    10 PaymentType.attendant_cash (by norm_num) (by norm_num) (by norm_num)
    (by norm_num) (by norm_num)).1

/-- C2 failing input: attendant 1 completes a 1000 attendant-cash
booking on day 0; on day 1 the batch settlement runs. The settlement
scope covers only today's bookings, so the day-0 booking stays
completed and attendant-unpaid, yet the wallet is reset to zero: the
stored aggregate (balance 0, companyDebt 0) differs from the replayed
ledger (balance −600, companyDebt 600), breaking the reconciliation
invariant. -/
theorem settle_breaks_reconciliation :
    ((runTrace [Op.createBooking 1 1000 PaymentType.attendant_cash,
        Op.nextDay, Op.settle [1]]).wallets 1).balance = 0 ∧
    ((runTrace [Op.createBooking 1 1000 PaymentType.attendant_cash,
        Op.nextDay, Op.settle [1]]).wallets 1).companyDebt = 0 ∧
    (replayedWallet (runTrace [Op.createBooking 1 1000 PaymentType.attendant_cash,
        Op.nextDay, Op.settle [1]]) 1).balance = -600 ∧
    (replayedWallet (runTrace [Op.createBooking 1 1000 PaymentType.attendant_cash,
        Op.nextDay, Op.settle [1]]) 1).companyDebt = 600 := by
  norm_num [runTrace, applyOp, initState, demoUsers, initWallet, createBooking,
    settleAttendantBalances, settleStep, settleScopePred, markScopePred, resetWallet,
    setWallet, addCompletedBooking, walletSave, replayedWallet, rebuildWalletBalance,
    rebuildFold, applyAdjustments, pt_admin_cash_ne, Function.update]

/-- C5 failing input: a completed booking (attendant 1, amount 1000,
attendant-collected cash) is updated to attendant 2 with amount 500.
The guards of wallet cases 3, 4 and 5 of `updateBooking` all fire: the
new attendant's wallet receives the 500 booking's deltas twice
(totalEarnings 1000 and balance −600 instead of 500 and −300) and the
original attendant's wallet ends at +600 instead of 0. -/
theorem update_attendant_and_amount_double_applies :
    ((runTrace [Op.createBooking 1 1000 PaymentType.attendant_cash,
        Op.updateBooking 0 ⟨some 2, some 500, none, none⟩]).wallets 2).totalEarnings = 1000 ∧
    ((runTrace [Op.createBooking 1 1000 PaymentType.attendant_cash,
        Op.updateBooking 0 ⟨some 2, some 500, none, none⟩]).wallets 2).balance = -600 ∧
    ((runTrace [Op.createBooking 1 1000 PaymentType.attendant_cash,
        Op.updateBooking 0 ⟨some 2, some 500, none, none⟩]).wallets 1).balance = 600 := by
  norm_num [runTrace, applyOp, initState, demoUsers, initWallet, createBooking,
    updateBooking, applyIf, findBooking, setWallet, addCompletedBooking,
    removeCompletedBooking, walletSave, pt_admin_cash_ne, Function.update]

/-- C6 counterexample: a reachable wallet state with balance exactly 0
but `isPaid = false`, refuting "isPaid is true iff balance == 0". An
admin-cash booking of 250 credits 100; a deduction of 100 brings the
balance back to 0, and no code path ever sets `isPaid` back to true. -/
theorem zero_balance_not_marked_paid :
    ((runTrace [Op.createBooking 1 250 PaymentType.admin_cash,
        Op.adjust 1 AdjKind.deduction 100 none "admin"]).wallets 1).balance = 0 ∧
    ((runTrace [Op.createBooking 1 250 PaymentType.admin_cash,
        Op.adjust 1 AdjKind.deduction 100 none "admin"]).wallets 1).isPaid = false := by
  norm_num [runTrace, applyOp, initState, demoUsers, initWallet, createBooking,
    adjustAttendantWallet, setWallet, addCompletedBooking, walletSave,
    pt_admin_cash_ne, Function.update]

/-- C8: the two settlement code paths mark different booking sets. With
a single completed unpaid booking created on day 0 and the clock at day
1, `markAttendantPaid` (no date filter) flips its `attendantPaid` flag
while `settleAttendantBalances` (today-only filter) leaves it false. -/
theorem settlement_scopes_differ :
    ((markAttendantPaid
        (runTrace [Op.createBooking 1 1000 PaymentType.attendant_cash, Op.nextDay]) 1).bookings.map
      (fun b => b.attendantPaid)) = [true] ∧
    (((settleAttendantBalances
        (runTrace [Op.createBooking 1 1000 PaymentType.attendant_cash, Op.nextDay]) [1]).state).bookings.map
      (fun b => b.attendantPaid)) = [false] := by
  norm_num [runTrace, applyOp, initState, demoUsers, initWallet, createBooking,
    markAttendantPaid, settleAttendantBalances, settleStep, settleScopePred, markScopePred,
    resetWallet, setWallet, addCompletedBooking, walletSave, pt_admin_cash_ne,
    Function.update]

/-- Resetting zeroes the balance. -/
theorem resetWallet_balance (w : Wallet) (d : ℕ) : (resetWallet w d).balance = 0 := by
  unfold resetWallet
  rw [walletSave_balance]

/-- Resetting zeroes the company debt. -/
theorem resetWallet_companyDebt (w : Wallet) (d : ℕ) : (resetWallet w d).companyDebt = 0 := by
  unfold resetWallet
  rw [walletSave_companyDebt]

/-- Resetting marks the wallet paid (the pre-save hook does not undo it
because the balance is zero). -/
theorem resetWallet_isPaid (w : Wallet) (d : ℕ) : (resetWallet w d).isPaid = true := by
  unfold resetWallet walletSave
  norm_num

/-- Resetting stamps the last payment date. -/
theorem resetWallet_lastPaymentDate (w : Wallet) (d : ℕ) :
    (resetWallet w d).lastPaymentDate = some d := by
  unfold resetWallet
  rw [walletSave_lastPaymentDate]

/-- Resetting clears the adjustments array. -/
theorem resetWallet_adjustments (w : Wallet) (d : ℕ) : (resetWallet w d).adjustments = [] := by
  unfold resetWallet
  rw [walletSave_adjustments]

/-- C9 counterexample: `resetWallet` (run by both settlement paths)
deletes a previously recorded adjustment entry, so the adjustments list
is not append-only. -/
theorem reset_deletes_recorded_adjustment :
    (resetWallet
      { balance := 50, totalEarnings := 0, totalCommission := 0, totalCompanyShare := 0,
        companyDebt := 0, lastPaymentDate := none, isPaid := false,
        adjustments := [{ kind := AdjKind.tip, amount := 50, reason := none,
                          adjustedBy := "admin", adjustedAt := 0 }] } 1).adjustments = [] ∧
    ({ balance := 50, totalEarnings := 0, totalCommission := 0, totalCompanyShare := 0,
       companyDebt := 0, lastPaymentDate := none, isPaid := false,
       adjustments := [{ kind := AdjKind.tip, amount := 50, reason := none,
                         adjustedBy := "admin", adjustedAt := 0 }] } : Wallet).adjustments
      ≠ [] := by
  exact ⟨resetWallet_adjustments _ _, by simp⟩

/-- C9 amended: `adjust` appends exactly one record, and neither the
booking apply/reverse methods nor `rebuild` touch the adjustments list,
but settlement/reset clears it. -/
theorem adjustments_append_only_except_reset (st : SystemState) (att : ℕ) (kind : AdjKind)
    (amount : ℚ) (reason : Option String) (adminName : String) (w : Wallet)
    (bs : List Booking) (a : ℚ) (pt : PaymentType) (d : ℕ)
    (hAmt : 0 < amount) (hRole : st.users att = some Role.attendant) :
    ((adjustAttendantWallet st att kind amount reason adminName).wallets att).adjustments
      = (st.wallets att).adjustments
        ++ [{ kind := kind, amount := amount, reason := reason,
              adjustedBy := adminName, adjustedAt := st.today }] ∧
    (rebuildWalletBalance w bs).adjustments = w.adjustments ∧
    (addCompletedBooking w a pt).adjustments = w.adjustments ∧
    (removeCompletedBooking w a pt).adjustments = w.adjustments ∧
    (resetWallet w d).adjustments = [] := by
  refine ⟨?_, ?_, ?_, ?_, resetWallet_adjustments w d⟩
  · unfold adjustAttendantWallet
    rw [if_neg (not_le.mpr hAmt), hRole]
    cases kind <;>
      simp [setWallet, Function.update_same, walletSave_adjustments]
  · unfold rebuildWalletBalance
    rw [walletSave_adjustments]
  · unfold addCompletedBooking
    rw [walletSave_adjustments]
    split <;> rfl
  · unfold removeCompletedBooking
    rw [walletSave_adjustments]
    split <;> rfl

/-- Witness for the amended C9 at a concrete adjustment. -/
theorem adjustments_append_only_except_reset_witness :
    (0:ℚ) < 25 ∧ initState.users 2 = some Role.attendant ∧
    ((adjustAttendantWallet initState 2 AdjKind.tip 25 none "boss").wallets 2).adjustments
      = (initState.wallets 2).adjustments
        ++ [{ kind := AdjKind.tip, amount := 25, reason := none,
              adjustedBy := "boss", adjustedAt := initState.today }] := by
  refine ⟨by norm_num, by decide, ?_⟩
  exact (adjustments_append_only_except_reset initState 2 AdjKind.tip 25 none "boss"
    initWallet [] 1 PaymentType.admin_cash 0 (by norm_num) (by decide)).1

/-- C10: a booking created through the creation handler carries the
schema-default status `completed` (the handler never sets a status), and
the handler therefore immediately applies the commission deltas to the
attendant's wallet: the stored wallet becomes `addCompletedBooking` of
the (unpaid-marked) previous wallet. -/
theorem createBooking_defaults_completed_and_pays (st : SystemState) (att : ℕ) (amt : ℚ)
    (pt : PaymentType) (role : Role)
    (hU : st.users att = some role) (hA : 0 < amt) :
    (createBooking st att amt pt).bookings
      = st.bookings
        ++ [⟨st.nextBookingId, att, amt, pt, BookingStatus.completed, false, st.today⟩] ∧
    (createBooking st att amt pt).wallets att
      = addCompletedBooking { st.wallets att with isPaid := false } amt pt := by
  unfold createBooking
  rw [if_neg (not_le.mpr hA), hU]
  simp [setWallet, Function.update_same]

/-- Witness for C10 on the initial state. -/
theorem createBooking_defaults_completed_and_pays_witness :
    initState.users 1 = some Role.attendant ∧ (0:ℚ) < 100 ∧
    (createBooking initState 1 100 PaymentType.admin_till).wallets 1
      = addCompletedBooking { initState.wallets 1 with isPaid := false } 100
          PaymentType.admin_till := by
  refine ⟨by decide, by norm_num, ?_⟩
  exact (createBooking_defaults_completed_and_pays initState 1 100 PaymentType.admin_till
    Role.attendant (by decide) (by norm_num)).2

/-- C4: when the settlement of an attendant succeeds (the attendant
exists with the attendant role and the wallet is not already paid), the
wallet afterwards has balance 0, companyDebt 0, `isPaid = true` and a
stamped `lastPaymentDate`, and every booking inside the settlement scope
(this attendant's completed bookings created today) has
`attendantPaid = true`. -/
theorem settle_success_zeroes_wallet (st : SystemState) (att : ℕ)
    (hU : st.users att = some Role.attendant) (hP : (st.wallets att).isPaid = false) :
    ((settleAttendantBalances st [att]).state.wallets att).balance = 0 ∧
    ((settleAttendantBalances st [att]).state.wallets att).companyDebt = 0 ∧
    ((settleAttendantBalances st [att]).state.wallets att).isPaid = true ∧
    ((settleAttendantBalances st [att]).state.wallets att).lastPaymentDate = some st.today ∧
    ∀ b ∈ (settleAttendantBalances st [att]).state.bookings,
      b.attendant = att → b.status = BookingStatus.completed → b.createdAt = st.today →
        b.attendantPaid = true := by
  unfold settleAttendantBalances
  simp only [List.foldl_cons, List.foldl_nil]
  unfold settleStep
  simp only [hU, hP]
  norm_num [setWallet, Function.update_same, resetWallet_balance, resetWallet_companyDebt,
    resetWallet_isPaid, resetWallet_lastPaymentDate]
  intro b hb hatt hstat hdate
  by_cases hscope : settleScopePred att st.today b = true
  · simp [hscope]
  · rw [if_neg hscope] at hatt hstat hdate ⊢
    simp [settleScopePred, markScopePred, hatt, hstat, hdate] at hscope
    exact hscope

/-- A one-booking state (attendant 1, completed, unpaid, created
today) used to exercise settlement concretely. -/
def settleDemoState : SystemState :=
  { users := demoUsers
    bookings := [⟨0, 1, 100, PaymentType.admin_cash, BookingStatus.completed, false, 0⟩]
    wallets := fun _ => { initWallet with isPaid := false }
    today := 0
    nextBookingId := 1 }

/-- Witness for C4 at a concrete one-booking state. -/
theorem settle_success_zeroes_wallet_witness :
    settleDemoState.users 1 = some Role.attendant ∧
    (settleDemoState.wallets 1).isPaid = false ∧
    ((settleAttendantBalances settleDemoState [1]).state.wallets 1).isPaid = true := by
  refine ⟨by decide, rfl, ?_⟩
  exact (settle_success_zeroes_wallet settleDemoState 1 (by decide) rfl).2.2.1

/-- The three per-attendant failure conditions of the settlement loop:
unknown id, wrong role, or wallet already paid. -/
def settleFails (st : SystemState) (att : ℕ) : Bool :=
  match st.users att with
  | none => true
  | some role => decide (role ≠ Role.attendant) || (st.wallets att).isPaid

/-- The error string the settlement loop reports for a failing
attendant. -/
def settleErrMsg (st : SystemState) (att : ℕ) : String :=
  match st.users att with
  | none => "Attendant not found: " ++ toString att
  | some role =>
    if role ≠ Role.attendant then "User is not an attendant: " ++ toString att
    else "Attendant already marked as paid: " ++ toString att

/-- A failing attendant's settlement step only appends its error
string: the state and the settled list are untouched. -/
theorem settleStep_fails (r : SettleOutcome) (att : ℕ)
    (h : settleFails r.state att = true) :
    settleStep r att = { r with errors := r.errors ++ [settleErrMsg r.state att] } := by
  unfold settleFails at h
  unfold settleStep settleErrMsg
  cases hu : r.state.users att with
  | none => rfl
  | some role =>
    rw [hu] at h
    by_cases hrole : role ≠ Role.attendant
    · simp [hrole]
    · have hr : role = Role.attendant := not_not.mp hrole
      subst hr
      simp only [ne_eq, not_true_eq_false, decide_False, Bool.false_or] at h
      simp [h]

/-- The settlement fold is a homomorphism in the settled/errors
accumulators. -/
theorem settleStep_acc (s : SystemState) (settled : List ℕ) (errs : List String) (att : ℕ) :
    settleStep ⟨s, settled, errs⟩ att
      = { state := (settleStep ⟨s, [], []⟩ att).state
          settled := settled ++ (settleStep ⟨s, [], []⟩ att).settled
          errors := errs ++ (settleStep ⟨s, [], []⟩ att).errors } := by
  unfold settleStep
  cases hu : s.users att with
  | none => simp
  | some role =>
    by_cases hrole : role ≠ Role.attendant
    · simp [hrole]
    · by_cases hp : (s.wallets att).isPaid
      · simp [hrole, hp]
      · simp [hrole, hp]

/-- The settlement fold over any id list is a homomorphism in the
accumulators. -/
theorem settleFold_acc (l : List ℕ) (s : SystemState) (settled : List ℕ)
    (errs : List String) :
    l.foldl settleStep ⟨s, settled, errs⟩
      = { state := (l.foldl settleStep ⟨s, [], []⟩).state
          settled := settled ++ (l.foldl settleStep ⟨s, [], []⟩).settled
          errors := errs ++ (l.foldl settleStep ⟨s, [], []⟩).errors } := by
  induction l generalizing s settled errs with
  | nil => simp
  | cons a l ih =>
    simp only [List.foldl_cons]
    rw [settleStep_acc s settled errs a, settleStep_acc s [] [] a]
    simp only [List.nil_append]
    rw [ih ((settleStep ⟨s, [], []⟩ a).state)
        (settled ++ (settleStep ⟨s, [], []⟩ a).settled)
        (errs ++ (settleStep ⟨s, [], []⟩ a).errors),
      ih ((settleStep ⟨s, [], []⟩ a).state)
        (settleStep ⟨s, [], []⟩ a).settled
        (settleStep ⟨s, [], []⟩ a).errors]
    simp [List.append_assoc]

/-- C7: in a batch settlement, an attendant that fails its checks
(unknown id, wrong role, or wallet already paid) at its turn is a pure
no-op apart from one reported error string: the final state and the
settled list equal those of the batch with that id removed, so the
failure neither changes that attendant's wallet or bookings nor
prevents or rolls back any other attendant's settlement, and the
result is a settled-list plus an errors-list. -/
theorem settle_batch_isolates_failures (st : SystemState) (pre post : List ℕ) (x : ℕ)
    (h : settleFails (settleAttendantBalances st pre).state x = true) :
    (settleAttendantBalances st (pre ++ x :: post)).state
      = (settleAttendantBalances st (pre ++ post)).state ∧
    (settleAttendantBalances st (pre ++ x :: post)).settled
      = (settleAttendantBalances st (pre ++ post)).settled ∧
    ∃ tail,
      (settleAttendantBalances st (pre ++ x :: post)).errors
        = (settleAttendantBalances st pre).errors
          ++ settleErrMsg (settleAttendantBalances st pre).state x :: tail ∧
      (settleAttendantBalances st (pre ++ post)).errors
        = (settleAttendantBalances st pre).errors ++ tail := by
  unfold settleAttendantBalances at *
  rw [List.foldl_append, List.foldl_append, List.foldl_cons]
  rw [settleStep_fails _ _ h]
  have hP : (pre.foldl settleStep ⟨st, [], []⟩)
      = ⟨(pre.foldl settleStep ⟨st, [], []⟩).state,
         (pre.foldl settleStep ⟨st, [], []⟩).settled,
         (pre.foldl settleStep ⟨st, [], []⟩).errors⟩ := rfl
  rw [hP]
  rw [settleFold_acc post _ ((pre.foldl settleStep ⟨st, [], []⟩).settled)
      ((pre.foldl settleStep ⟨st, [], []⟩).errors
        ++ [settleErrMsg (pre.foldl settleStep ⟨st, [], []⟩).state x]),
    settleFold_acc post _ ((pre.foldl settleStep ⟨st, [], []⟩).settled)
      ((pre.foldl settleStep ⟨st, [], []⟩).errors)]
  refine ⟨rfl, rfl, (post.foldl settleStep ⟨(pre.foldl settleStep ⟨st, [], []⟩).state, [], []⟩).errors, ?_, rfl⟩
  simp

/-- Witness for C7: id 3 is unknown in the demo directory; settling
`[3, 1]` changes nothing versus settling `[1]` except the reported
error. -/
theorem settle_batch_isolates_failures_witness :
    settleFails (settleAttendantBalances settleDemoState []).state 3 = true ∧
    (settleAttendantBalances settleDemoState ([] ++ 3 :: [1])).settled
      = (settleAttendantBalances settleDemoState ([] ++ [1])).settled := by
  refine ⟨by decide, ?_⟩
  exact (settle_batch_isolates_failures settleDemoState [] [1] 3 (by decide)).2.1

/-- The one-directional paid invariant a single wallet satisfies: a
wallet marked paid has balance exactly 0. -/
@[reducible] def WalletPaidInv (w : Wallet) : Prop := w.isPaid = true → w.balance = 0

/-- The paid invariant over the whole wallet collection. -/
@[reducible] def PaidInv (st : SystemState) : Prop := ∀ a, WalletPaidInv (st.wallets a)

/-- Every saved wallet satisfies the paid invariant: the pre-save hook
clears `isPaid` whenever the balance is non-zero. -/
theorem walletSave_paidInv (w : Wallet) : WalletPaidInv (walletSave w) := by
  unfold WalletPaidInv walletSave
  split
  · intro h
    cases h
  · intro _
    exact not_not.mp (by assumption)

/-- Applying a booking yields a wallet satisfying the paid invariant. -/
theorem addCompletedBooking_paidInv (w : Wallet) (a : ℚ) (pt : PaymentType) :
    WalletPaidInv (addCompletedBooking w a pt) := by
  unfold addCompletedBooking
  exact walletSave_paidInv _

/-- Reversing a booking yields a wallet satisfying the paid invariant. -/
theorem removeCompletedBooking_paidInv (w : Wallet) (a : ℚ) (pt : PaymentType) :
    WalletPaidInv (removeCompletedBooking w a pt) := by
  unfold removeCompletedBooking
  exact walletSave_paidInv _

/-- Rebuilding yields a wallet satisfying the paid invariant. -/
theorem rebuildWalletBalance_paidInv (w : Wallet) (bs : List Booking) :
    WalletPaidInv (rebuildWalletBalance w bs) := by
  unfold rebuildWalletBalance
  exact walletSave_paidInv _

/-- Resetting yields a wallet satisfying the paid invariant. -/
theorem resetWallet_paidInv (w : Wallet) (d : ℕ) : WalletPaidInv (resetWallet w d) := by
  unfold resetWallet
  exact walletSave_paidInv _

/-- The lazily-created wallet satisfies the paid invariant. -/
theorem initWallet_paidInv : WalletPaidInv initWallet := fun _ => rfl

/-- Storing an invariant-satisfying wallet preserves the collection
invariant. -/
theorem paidInv_setWallet {st : SystemState} {att : ℕ} {w : Wallet}
    (h : PaidInv st) (hw : WalletPaidInv w) : PaidInv (setWallet st att w) := by
  intro a
  unfold setWallet
  simp only [Function.update_apply]
  split
  · exact hw
  · exact h a

/-- Creating a booking preserves the paid invariant. -/
theorem paidInv_createBooking (st : SystemState) (a : ℕ) (amt : ℚ) (pt : PaymentType)
    (h : PaidInv st) : PaidInv (createBooking st a amt pt) := by
  unfold createBooking
  repeat' split
  all_goals
    first
      | exact h
      | exact paidInv_setWallet h (addCompletedBooking_paidInv _ _ _)

/-- A guarded update whose body preserves the paid invariant preserves
it. -/
theorem paidInv_applyIf (c : Bool) (f : SystemState → SystemState) (st : SystemState)
    (h : PaidInv st) (hf : ∀ s, PaidInv s → PaidInv (f s)) : PaidInv (applyIf c f st) := by
  unfold applyIf
  split
  · exact hf st h
  · exact h

/-- Updating a booking preserves the paid invariant: every wallet write
in the five cases is the result of `addCompletedBooking` or
`removeCompletedBooking`, each of which re-establishes it. -/
theorem paidInv_updateBooking (st : SystemState) (id : ℕ) (r : UpdateReq)
    (h : PaidInv st) : PaidInv (updateBooking st id r) := by
  unfold updateBooking
  split
  · exact h
  split
  · exact h
  split
  · exact h
  refine paidInv_applyIf _ _ _
    (paidInv_applyIf _ _ _
      (paidInv_applyIf _ _ _
        (paidInv_applyIf _ _ _
          (paidInv_applyIf _ _ _ h ?_) ?_) ?_) ?_) ?_
  all_goals
    intro s hs
  all_goals
    repeat
      first
        | exact hs
        | refine paidInv_setWallet ?_ ?_
        | exact addCompletedBooking_paidInv _ _ _
        | exact removeCompletedBooking_paidInv _ _ _

/-- Deleting a booking preserves the paid invariant. -/
theorem paidInv_deleteBooking (st : SystemState) (id : ℕ)
    (h : PaidInv st) : PaidInv (deleteBooking st id) := by
  unfold deleteBooking
  repeat' split
  all_goals
    repeat
      first
        | exact h
        | refine paidInv_setWallet ?_ ?_
        | exact removeCompletedBooking_paidInv _ _ _

/-- Marking an attendant paid preserves the paid invariant. -/
theorem paidInv_markAttendantPaid (st : SystemState) (att : ℕ)
    (h : PaidInv st) : PaidInv (markAttendantPaid st att) := by
  unfold markAttendantPaid
  repeat' split
  all_goals
    first
      | exact h
      | exact paidInv_setWallet h (resetWallet_paidInv _ _)

/-- One settlement step preserves the paid invariant of the carried
state. -/
theorem paidInv_settleStep (r : SettleOutcome) (att : ℕ)
    (h : PaidInv r.state) : PaidInv (settleStep r att).state := by
  unfold settleStep
  repeat' split
  all_goals
    first
      | exact h
      | exact paidInv_setWallet h (resetWallet_paidInv _ _)

/-- The settlement fold preserves the paid invariant. -/
theorem paidInv_settleFold (ids : List ℕ) (r : SettleOutcome)
    (h : PaidInv r.state) : PaidInv (ids.foldl settleStep r).state := by
  induction ids generalizing r with
  | nil => exact h
  | cons a l ih =>
    simp only [List.foldl_cons]
    exact ih _ (paidInv_settleStep r a h)

/-- Adjusting a wallet preserves the paid invariant. -/
theorem paidInv_adjust (st : SystemState) (att : ℕ) (k : AdjKind) (amt : ℚ)
    (reason : Option String) (n : String)
    (h : PaidInv st) : PaidInv (adjustAttendantWallet st att k amt reason n) := by
  unfold adjustAttendantWallet
  repeat' split
  all_goals
    first
      | exact h
      | exact paidInv_setWallet h (walletSave_paidInv _)

/-- Rebuilding a wallet preserves the paid invariant. -/
theorem paidInv_rebuildOp (st : SystemState) (att : ℕ)
    (h : PaidInv st) : PaidInv (rebuildOp st att) := by
  unfold rebuildOp
  repeat' split
  all_goals
    first
      | exact h
      | exact paidInv_setWallet h (rebuildWalletBalance_paidInv _ _)

/-- Every operation preserves the paid invariant. -/
theorem paidInv_applyOp (st : SystemState) (op : Op)
    (h : PaidInv st) : PaidInv (applyOp st op) := by
  cases op with
  | nextDay => exact h
  | createBooking a amt pt => exact paidInv_createBooking st a amt pt h
  | updateBooking id r => exact paidInv_updateBooking st id r h
  | deleteBooking id => exact paidInv_deleteBooking st id h
  | settle ids => exact paidInv_settleFold ids ⟨st, [], []⟩ h
  | markPaid a => exact paidInv_markAttendantPaid st a h
  | adjust a k amt r n => exact paidInv_adjust st a k amt r n h
  | rebuild a => exact paidInv_rebuildOp st a h

/-- The paid invariant holds along any trace from any invariant-
satisfying start state. -/
theorem paidInv_foldTrace (ops : List Op) (st : SystemState)
    (h : PaidInv st) : PaidInv (ops.foldl applyOp st) := by
  induction ops generalizing st with
  | nil => exact h
  | cons op l ih =>
    simp only [List.foldl_cons]
    exact ih _ (paidInv_applyOp st op h)

/-- C6 amended: in every reachable state, a wallet with `isPaid = true`
has balance exactly 0 — equivalently, every operation that leaves a
non-zero balance leaves or sets `isPaid` to false. (The converse
direction of the original claim is refuted separately: an operation can
leave the balance at exactly 0 with `isPaid` still false.) -/
theorem reachable_paid_implies_zero_balance (ops : List Op) (att : ℕ)
    (h : ((runTrace ops).wallets att).isPaid = true) :
    ((runTrace ops).wallets att).balance = 0 := by
  exact paidInv_foldTrace ops initState (fun _ => initWallet_paidInv) att h

/-- Witness for the amended C6 on the empty trace. -/
theorem reachable_paid_implies_zero_balance_witness :
    ((runTrace []).wallets 0).isPaid = true ∧ ((runTrace []).wallets 0).balance = 0 :=
  ⟨rfl, reachable_paid_implies_zero_balance [] 0 rfl⟩

end Carwash
